import Mathlib

/-!
Verification of the Quipu Analytics Suite header-rendering engine
(`enhanced_header_generator.py`), as a shallow embedding in Lean 4.

The rendered markdown document is modelled as a `List String` of lines:
the Python code builds the header by appending text pieces each of which
ends in a newline, so the final string is the concatenation of
`line ++ "\n"` over this list.  String lowering is modelled on the ASCII
range (`Char.toLower`), matching Python `str.lower()` on ASCII input.
-/

set_option maxRecDepth 8000

namespace Quipu

/-- Is `p` a prefix of the character list (second argument)?
Embeds the positional comparisons behind Python substring search. -/
def prefixOfCh : List Char → List Char → Bool
  | [], _ => true
  | _ :: _, [] => false
  | a :: as, b :: bs => a == b && prefixOfCh as bs

/-- Does the character list (second argument) contain `needle` as a
contiguous sublist?  Embeds Python `needle in hay` on strings. -/
def hasSubCh (needle : List Char) : List Char → Bool
  | [] => prefixOfCh needle []
  | c :: t => prefixOfCh needle (c :: t) || hasSubCh needle t

/-- Python `needle in hay` substring test. -/
def strIn (needle hay : String) : Bool :=
  hasSubCh needle.data hay.data

/-- Python `hay.startswith(p)` / "this line begins with `p`". -/
def strStarts (hay p : String) : Bool :=
  prefixOfCh p.data hay.data

/-- Python `s.lower()`, modelled character-wise on the ASCII range. -/
def lowerStr (s : String) : String :=
  String.mk (s.data.map Char.toLower)

/-- Embeds lines 288-302 of `enhanced_header_generator.py`: the
prerequisite resolver, an if/elif chain over the lower-cased title. -/
def resolvePrerequisites (title : String) : String :=
  let t := lowerStr title
  if strIn "tier 1" t || strIn "descriptive" t then
    "Basic statistics, Excel proficiency, curiosity about data"
  else if strIn "tier 2" t || strIn "regression" t then
    "Tier 1 completion, basic linear algebra, introductory statistics"
  else if strIn "tier 3" t || strIn "time series" t then
    "Tier 2 completion, time series concepts, intermediate statistics"
  else if strIn "tier 4" t || strIn "unsupervised" t then
    "Tier 3 completion, linear algebra, unsupervised learning basics"
  else if strIn "tier 5" t || strIn "ensemble" t then
    "Tier 4 completion, ensemble methods understanding, advanced ML concepts"
  else if strIn "tier 6" t || strIn "advanced" t then
    "Tier 5 completion, advanced statistics, domain expertise in target application"
  else
    "Appropriate mathematical background for the analytical complexity level"

/-- The keyword table of the sector classifier (lines 271-280), in the
order the five `if` statements test it. -/
def sectorKeywords : List (String × List String) :=
  [("Financial Services", ["financial", "credit", "fraud", "banking"]),
   ("Marketing & Sales", ["customer", "marketing", "sales", "retail"]),
   ("Manufacturing", ["manufacturing", "quality", "production"]),
   ("Healthcare", ["healthcare", "medical", "clinical"]),
   ("Cybersecurity", ["network", "security", "cyber"])]

/-- Python `any(term in app.lower() for term in terms)`. -/
def appMatches (terms : List String) (app : String) : Bool :=
  terms.any (fun t => strIn t (lowerStr app))

/-- Python `sectors.add(x)` on a set represented as a duplicate-free list. -/
def addSector (s : List String) (x : String) : List String :=
  if x ∈ s then s else s ++ [x]

/-- The set `sectors` accumulated by the classifier loop (lines 269-280):
for each application, each matching keyword row adds its sector. -/
def matchedSectors (apps : List String) : List String :=
  apps.foldl
    (fun acc app =>
      sectorKeywords.foldl
        (fun acc2 p => if appMatches p.2 app then addSector acc2 p.1 else acc2)
        acc)
    []

/-- Python `sorted(sectors)` (line 283): the matched sectors in sorted
order, duplicate-free. -/
def classify (apps : List String) : List String :=
  (matchedSectors apps).insertionSort (fun a b => a ≤ b)

/-- The `repository` record of the registry (the five keys the fallback
registry carries; the renderer reads `author`, `affiliation`, `license`,
`name`). -/
structure Repository where
  name : String
  author : String
  affiliation : String
  license : String
  version : String
deriving DecidableEq, Repr

/-- One registry entry.  Every field is optional, matching how the code
accesses the parsed JSON record via `notebook_info.get` and `in` tests. -/
structure NotebookInfo where
  title : Option String := none
  version : Option String := none
  date : Option String := none
  format : Option String := none
  notebook_id : Option String := none
  notebook_scope : Option String := none
  business_applications : Option (List String) := none
  models_implemented : Option (List String) := none
  key_visualizations : Option (List String) := none
  learning_outcomes : Option (List String) := none
  technical_features : Option (List String) := none
  evaluation_methods : Option (List String) := none
deriving DecidableEq, Repr

/-- The loaded registry.  `repository` is an `Option` because a file that
parses without a `repository` key yields a record on which the renderer
access `self.registry["repository"]` raises `KeyError`. -/
structure Registry where
  repository : Option Repository
  notebooks : List (String × NotebookInfo)
deriving DecidableEq, Repr

/-- The `self.execution_metadata` record captured in `__init__` (lines 46-50). -/
structure ExecutionMetadata where
  execution_timestamp : String
  platform : String
  python_version : String
deriving DecidableEq, Repr

/-- An `EnhancedNotebookHeaderGenerator` instance: the registry loaded at
construction and the construction-time execution metadata. -/
structure Generator where
  registry : Registry
  execution_metadata : ExecutionMetadata
deriving DecidableEq, Repr

/-- Embeds `_get_fallback_registry` (lines 65-76). -/
def fallbackRegistry : Registry :=
  { repository := some
      { name := "Quipu Analytics Suite",
        author := "Bryson Charles de los Reyes, PHD",
        affiliation := "Universidad Católica de Santa María",
        license := "MIT",
        version := "v1.3" },
    notebooks := [] }

/-- Embeds `_load_registry` (lines 52-63).  The argument encodes the state
of the registry file: `none` = the file does not exist; `some none` = the
file exists but opening or parsing it raises; `some (some r)` = it parses
to `r`.  The second component records whether the warning was printed
(only the `except` branch prints one). -/
def loadRegistry : Option (Option Registry) → Registry × Bool
  | none => (fallbackRegistry, false)
  | some none => (fallbackRegistry, true)
  | some (some r) => (r, false)

/-- Embeds `__init__` (lines 36-50): load the registry, snapshot the
execution metadata from the construction-time clock, platform and runtime
version. -/
def mkGenerator (file : Option (Option Registry)) (now_ts plat pyver : String) :
    Generator :=
  { registry := (loadRegistry file).1,
    execution_metadata :=
      { execution_timestamp := now_ts, platform := plat, python_version := pyver } }

/-- Python `notebooks[key]` lookup on the mapping, as association-list
search. -/
def lookupNb (nbs : List (String × NotebookInfo)) (k : String) : Option NotebookInfo :=
  match nbs.find? (fun p => p.1 == k) with
  | some p => some p.2
  | none => none

/-- The synthesized NotebookInfo for unknown keys (lines 89-94). -/
def synthInfo (nowDate : String) : NotebookInfo :=
  { title := some "Analytics Notebook",
    version := some "v1.3",
    date := some nowDate,
    format := some "simplified" }

/-- Embeds lines 85-94: use the registry entry when `notebook_key` is
truthy (non-`None`, non-empty) and present in `notebooks`, else the
synthesized record. -/
def resolveInfo (reg : Registry) (key : Option String) (nowDate : String) :
    NotebookInfo :=
  match key with
  | none => synthInfo nowDate
  | some k =>
    if k == "" then synthInfo nowDate
    else
      match lookupNb reg.notebooks k with
      | some info => info
      | none => synthInfo nowDate

/-- One truncated list subsection (the shape lines 131-177 repeat four
times): blank line, `### <marker> <name> (<L> total)` heading, then either
all items as bullets, or the first `cap` bullets followed by the overflow
bullet `- *...and <L-cap> <noun>*`. -/
def listSection (marker nm noun : String) (cap : Nat) (items : List String) :
    List String :=
  ["", marker ++ " " ++ nm ++ " (" ++ toString items.length ++ " total)"] ++
    (if items.length > cap then
      (items.take cap).map (fun x => "- " ++ x) ++
        ["- *...and " ++ toString (items.length - cap) ++ " " ++ noun ++ "*"]
    else
      items.map (fun x => "- " ++ x))

/-- Embeds lines 128-177: the conditional subsections appended to the
Contributors block, each present exactly when its field is present. -/
def contributorSections (info : NotebookInfo) : List String :=
  (match info.notebook_scope with
   | some scope => ["", "### 📋 Notebook Scope", scope]
   | none => []) ++
  (match info.business_applications with
   | some apps => listSection "### 🏢" "Business Applications" "more applications" 5 apps
   | none => []) ++
  (match info.models_implemented with
   | some models => listSection "### 🤖" "Models Implemented" "additional models" 5 models
   | none => []) ++
  (match info.key_visualizations with
   | some viz => listSection "### 📊" "Key Visualizations" "additional visualizations" 4 viz
   | none => []) ++
  (match info.learning_outcomes with
   | some outcomes => listSection "### 🎓" "Learning Outcomes" "additional outcomes" 3 outcomes
   | none => [])

/-- The opening f-string block (lines 100-125): title, authorship block,
citation, fixed Contributors attribution lines. -/
def headBlock (repo : Repository) (info : NotebookInfo) (nowDate nid : String) :
    List String :=
  ["# " ++ info.title.getD "Analytics Notebook",
   "",
   "---",
   "",
   "**Author:** " ++ repo.author,
   "**Affiliation:** " ++ repo.affiliation,
   "**Date:** " ++ info.date.getD nowDate,
   "**Version:** " ++ info.version.getD "v1.3",
   "**License:** " ++ repo.license,
   "**Notebook ID:** " ++ nid,
   "",
   "---",
   "",
   "## Citation",
   repo.author ++ ", \"" ++ info.title.getD "Analytics Notebook" ++ ",\" " ++
     repo.name ++ ", " ++ repo.affiliation ++ ", " ++ info.version.getD "v1.3" ++
     ", " ++ info.date.getD nowDate ++ ".",
   "",
   "Please cite this notebook if used or adapted in publications, presentations, or derivative work.",
   "",
   "---",
   "",
   "## Contributors / Acknowledgments",
   "- **Primary Author:** " ++ repo.author ++ " (" ++ repo.affiliation ++ ")",
   "- **Institutional Support:** " ++ repo.affiliation ++ " - Advanced Analytics Division",
   "- **Technical Framework:** Built on scikit-learn, pandas, numpy, and plotly ecosystems",
   "- **Methodological Foundation:** Statistical learning principles and modern data science best practices"]

/-- The fixed block of lines 179-209: Version History, Environment
Dependencies, and the static Data Provenance table rows. -/
def staticMidBlock : List String :=
  ["", "---", "", "## Version History",
   "| Version | Date | Notes |",
   "|---------|------|-------|",
   "| v1.3 | 2025-10-02 | Enhanced professional formatting, comprehensive documentation, interactive visualizations |",
   "| v1.2 | 2024-09-15 | Updated analysis methods, improved data generation algorithms |",
   "| v1.0 | 2024-06-10 | Initial release with core analytical framework |",
   "", "---", "", "## Environment Dependencies",
   "- **Python:** 3.8+",
   "- **Core Libraries:** pandas 2.0+, numpy 1.24+, scikit-learn 1.3+",
   "- **Visualization:** plotly 5.0+, matplotlib 3.7+",
   "- **Statistical:** scipy 1.10+, statsmodels 0.14+",
   "- **Development:** jupyter-lab 4.0+, ipywidgets 8.0+",
   "",
   "> **Reproducibility Note:** Use requirements.txt or environment.yml for exact dependency matching.",
   "", "---", "", "## Data Provenance",
   "| Dataset | Source | License | Notes |",
   "|---------|--------|---------|-------|",
   "| Synthetic Data | Generated in-notebook | MIT | Custom algorithms for realistic simulation |",
   "| Statistical Distributions | NumPy/SciPy | BSD-3-Clause | Standard library implementations |",
   "| ML Algorithms | Scikit-learn | BSD-3-Clause | Industry-standard implementations |",
   "| Visualization Schemas | Plotly | MIT | Interactive dashboard frameworks |"]

/-- One extra Data Provenance row (the shape lines 212-228 repeat twice):
comma-joined preview capped at 3 items, ellipsis marker when truncated. -/
def provRow (label mid : String) (items : List String) : String :=
  if items.length > 3 then
    "| " ++ label ++ " | " ++ mid ++ " | " ++ toString items.length ++ " | " ++
      String.intercalate ", " (items.take 3) ++ ", ... |"
  else
    "| " ++ label ++ " | " ++ mid ++ " | " ++ toString items.length ++ " | " ++
      String.intercalate ", " items ++ " |"

/-- The conditional Data Provenance rows for `technical_features` and
`evaluation_methods` (lines 212-228). -/
def provRowsBlock (info : NotebookInfo) : List String :=
  (match info.technical_features with
   | some fs => [provRow "Technical Features" "Implementation" fs]
   | none => []) ++
  (match info.evaluation_methods with
   | some ms => [provRow "Evaluation Methods" "Statistical/ML Metrics" ms]
   | none => [])

/-- The Execution Provenance Logs block (lines 230-241): the three live
values come from the memoized `execution_metadata` of the instance. -/
def execBlock (info : NotebookInfo) (nowDate nid : String) (em : ExecutionMetadata) :
    List String :=
  ["", "---", "", "## Execution Provenance Logs",
   "- **Created:** " ++ info.date.getD nowDate,
   "- **Notebook ID:** " ++ nid,
   "- **Execution Environment:** Jupyter Lab / VS Code",
   "- **Computational Requirements:** Standard laptop/workstation (2GB+ RAM recommended)",
   "- **Current Execution:** " ++ em.execution_timestamp,
   "- **Platform:** " ++ em.platform,
   "- **Python Version:** " ++ em.python_version]

/-- The fixed Auto-tracking note and Disclaimer block (lines 243-262). -/
def disclaimerBlock : List String :=
  ["",
   "> **Auto-tracking:** Execution metadata can be programmatically captured for reproducibility.",
   "", "---", "", "## Disclaimer & Responsible Use",
   "This notebook is provided \"as-is\" for educational, research, and professional development purposes. Users assume full responsibility for any results, applications, or decisions derived from this analysis.",
   "",
   "**Professional Standards:**",
   "- Validate all results against domain expertise and additional data sources",
   "- Respect licensing and attribution requirements for all dependencies",
   "- Follow ethical guidelines for data analysis and algorithmic decision-making",
   "- Credit all methodological sources and derivative frameworks appropriately",
   "",
   "**Academic & Commercial Use:**",
   "- Permitted under MIT license with proper attribution",
   "- Suitable for educational curriculum and professional training",
   "- Appropriate for commercial adaptation with citation requirements",
   "- Recommended for reproducible research and transparent analytics"]

/-- The Industry Applications lines (lines 265-285): present only when
`business_applications` is; sector line from the classifier, with the
cross-industry fallback when no keyword matched. -/
def industryBlock (info : NotebookInfo) : List String :=
  match info.business_applications with
  | none => []
  | some apps =>
    ["", "**Industry Applications:**"] ++
      (if matchedSectors apps = [] then
        ["- Cross-industry applications across multiple business domains"]
      else
        ["- Relevant sectors: " ++ String.intercalate ", " (classify apps)])

/-- The Recommended Prerequisites lines (lines 288-304); the resolver runs
on the title field defaulted to the empty string. -/
def prereqBlock (info : NotebookInfo) : List String :=
  ["", "**Recommended Prerequisites:**",
   "- " ++ resolvePrerequisites (info.title.getD "")]

/-- The trailing separator `"\n---\n\n\n"` (line 306). -/
def trailerBlock : List String :=
  ["", "---", "", ""]

/-- The full successfully assembled document (lines 100-306), as the list
of its lines in order. -/
def headerLines (repo : Repository) (info : NotebookInfo) (nowDate nid : String)
    (em : ExecutionMetadata) : List String :=
  headBlock repo info nowDate nid ++
    contributorSections info ++
    staticMidBlock ++
    provRowsBlock info ++
    execBlock info nowDate nid em ++
    disclaimerBlock ++
    industryBlock info ++
    prereqBlock info ++
    trailerBlock

/-- The message of the `KeyError` raised by `self.registry["repository"]`
on a registry record without that key: the key name wrapped in single
quotes. -/
def keyErrorRepository : String :=
  String.mk (Char.ofNat 39 :: ("repository".data ++ [Char.ofNat 39]))

/-- The fallible assembly inside the `try` of `generate_enhanced_header`
(lines 83-326).  `nowDate` is the call-time `datetime.now()` date string;
`freshId` is the per-call `str(uuid.uuid4())` draw, used only when the
record carries no `notebook_id`.  The modelled failure is the access
`self.registry["repository"]` on a registry lacking that key. -/
def assembleHeader (g : Generator) (key : Option String) (nowDate freshId : String) :
    Except String (List String) :=
  let info := resolveInfo g.registry key nowDate
  match g.registry.repository with
  | none => Except.error keyErrorRepository
  | some repo =>
    Except.ok (headerLines repo info nowDate (info.notebook_id.getD freshId)
      g.execution_metadata)

/-- The minimal error document built in the `except` branch
(lines 328-331): `f"# Notebook Header\n\n{error_msg}"`. -/
def errorDoc (e : String) : List String :=
  ["# Notebook Header", "", "❌ Error generating enhanced header: " ++ e]

/-- Embeds `generate_enhanced_header` (lines 78-331): the assembly wrapped
in the top-level try/except; the lines of the returned document. -/
def generate_enhanced_header (g : Generator) (key : Option String)
    (nowDate freshId : String) : List String :=
  match assembleHeader g key nowDate freshId with
  | Except.ok ls => ls
  | Except.error e => errorDoc e

/-- The sixteen lowercase hexadecimal digit characters. -/
def hexChars : List Char :=
  "0123456789abcdef".data

/-- The hexadecimal digit character of `n % 16`. -/
def hexDigit (n : Nat) : Char :=
  hexChars.getD (n % 16) '0'

/-- Modelled from the spec: `str(uuid.uuid4())` (its implementation lives
outside this repository).  A version-4 UUID string drawn from a supply of
random nibbles `r`: thirty free hex digits, the version nibble fixed to
`4` at position 14, and the variant nibble at position 19 drawn from
`8/9/a/b`. -/
def uuid4str (r : Nat → Nat) : String :=
  String.mk
    [hexDigit (r 0), hexDigit (r 1), hexDigit (r 2), hexDigit (r 3),
     hexDigit (r 4), hexDigit (r 5), hexDigit (r 6), hexDigit (r 7), '-',
     hexDigit (r 8), hexDigit (r 9), hexDigit (r 10), hexDigit (r 11), '-',
     '4', hexDigit (r 12), hexDigit (r 13), hexDigit (r 14), '-',
     hexDigit (8 + r 30 % 4), hexDigit (r 15), hexDigit (r 16), hexDigit (r 17), '-',
     hexDigit (r 18), hexDigit (r 19), hexDigit (r 20), hexDigit (r 21),
     hexDigit (r 22), hexDigit (r 23), hexDigit (r 24), hexDigit (r 25),
     hexDigit (r 26), hexDigit (r 27), hexDigit (r 28), hexDigit (r 29)]

/-- Is `c` a lowercase hexadecimal digit? -/
def isHexLower (c : Char) : Bool :=
  c.isDigit || ('a' ≤ c && c ≤ 'f')

/-- The UUID-v4 textual shape: `8-4-4-4-12` lowercase hex groups with the
version digit `4` and a variant digit among `8/9/a/b`. -/
def isUuid4Shape (s : String) : Bool :=
  match s.data with
  | a0 :: a1 :: a2 :: a3 :: a4 :: a5 :: a6 :: a7 :: h1 ::
      b0 :: b1 :: b2 :: b3 :: h2 ::
      c0 :: c1 :: c2 :: c3 :: h3 ::
      d0 :: d1 :: d2 :: d3 :: h4 ::
      e0 :: e1 :: e2 :: e3 :: e4 :: e5 :: e6 :: e7 :: e8 :: e9 :: e10 :: e11 :: [] =>
    h1 == '-' && h2 == '-' && h3 == '-' && h4 == '-' &&
      ([a0, a1, a2, a3, a4, a5, a6, a7, b0, b1, b2, b3, c1, c2, c3,
        d1, d2, d3, e0, e1, e2, e3, e4, e5, e6, e7, e8, e9, e10, e11].all isHexLower)
      && c0 == '4' && (d0 == '8' || d0 == '9' || d0 == 'a' || d0 == 'b')
  | _ => false

/-! ### Concrete fixtures used by counterexamples and witnesses -/

/-- The `repository` record of the fallback registry. -/
def fallbackRepo : Repository :=
  { name := "Quipu Analytics Suite",
    author := "Bryson Charles de los Reyes, PHD",
    affiliation := "Universidad Católica de Santa María",
    license := "MIT",
    version := "v1.3" }

/-- A registry entry with every authorship-relevant field present, so a
render of it reads nothing from the call-time clock. -/
def sampleInfoFull : NotebookInfo :=
  { title := some "Tier 2: Linear Regression",
    version := some "v1.0",
    date := some "2025-01-03",
    notebook_id := some "nid-1" }

/-- A registry holding `sampleInfoFull` under the key `"nb"`. -/
def sampleRegistryFull : Registry :=
  { repository := fallbackRegistry.repository,
    notebooks := [("nb", sampleInfoFull)] }

/-- A generator over `sampleRegistryFull` whose execution metadata was
captured at construction. -/
def sampleGenFull : Generator :=
  { registry := sampleRegistryFull,
    execution_metadata :=
      { execution_timestamp := "2025-01-01 00:00:00",
        platform := "ConstructPlatform",
        python_version := "3.11.0" } }

/-- A registry entry whose `business_applications` field is present but
empty. -/
def emptyBizInfo : NotebookInfo :=
  { business_applications := some [] }

/-- A generator whose registry holds `emptyBizInfo` under `"nb"`. -/
def emptyBizGen : Generator :=
  { registry :=
      { repository := fallbackRegistry.repository,
        notebooks := [("nb", emptyBizInfo)] },
    execution_metadata :=
      { execution_timestamp := "T", platform := "P", python_version := "V" } }

/-- A generator whose registry record parsed without a `repository` key:
the assembly raises `KeyError` on it. -/
def noRepoGen : Generator :=
  { registry := { repository := none, notebooks := [] },
    execution_metadata :=
      { execution_timestamp := "T", platform := "P", python_version := "V" } }

/-! ### Helper lemmas on the string primitives -/

theorem prefixOfCh_append (p r : List Char) : prefixOfCh p (p ++ r) = true := by
  induction p with
  | nil => rfl
  | cons a as ih => simp [prefixOfCh, ih]

theorem prefixOfCh_of_append (p r h : List Char)
    (hp : prefixOfCh (p ++ r) h = true) : prefixOfCh p h = true := by
  induction p generalizing h with
  | nil => rfl
  | cons a as ih =>
    cases h with
    | nil => simp [prefixOfCh] at hp
    | cons b bs =>
      simp only [List.cons_append, prefixOfCh, Bool.and_eq_true] at hp ⊢
      exact ⟨hp.1, ih bs hp.2⟩

theorem prefixOfCh_append_false (p q r : List Char)
    (h : prefixOfCh p q = false) (hl : p.length ≤ q.length) :
    prefixOfCh p (q ++ r) = false := by
  induction p generalizing q with
  | nil => simp [prefixOfCh] at h
  | cons a as ih =>
    cases q with
    | nil => simp at hl
    | cons b bs =>
      simp only [List.cons_append, prefixOfCh, Bool.and_eq_false_iff] at h ⊢
      rcases h with h | h
      · exact Or.inl h
      · exact Or.inr (ih bs h (by simpa using hl))

theorem prefixOfCh_self (l : List Char) : prefixOfCh l l = true := by
  have h := prefixOfCh_append l []
  simpa using h

theorem hasSubCh_suffix (pre n : List Char) : hasSubCh n (pre ++ n) = true := by
  induction pre with
  | nil =>
    cases n with
    | nil => rfl
    | cons c t => simp [hasSubCh, prefixOfCh_self]
  | cons a as ih => simp [hasSubCh, ih]

theorem strIn_append_self (pre e : String) : strIn e (pre ++ e) = true := by
  simp [strIn, String.data_append, hasSubCh_suffix]

theorem strStarts_of_data_prefix (l m : String) (r : List Char)
    (h : l.data = m.data ++ r) : strStarts l m = true := by
  simp [strStarts, h, prefixOfCh_append]

theorem strStarts_of_ne_marker (l m m' : String) (r : List Char)
    (h : l.data = m'.data ++ r) (hp : prefixOfCh m.data m'.data = false)
    (hl : m.data.length ≤ m'.data.length) : strStarts l m = false := by
  simp [strStarts, h]
  exact prefixOfCh_append_false _ _ _ hp hl

theorem strStarts_false_mono (s p q : String) (r : List Char)
    (hq : q.data = p.data ++ r) (h : strStarts s p = false) :
    strStarts s q = false := by
  cases hsq : strStarts s q with
  | false => rfl
  | true =>
    exfalso
    rw [strStarts, hq] at hsq
    have := prefixOfCh_of_append p.data r s.data hsq
    rw [strStarts] at h
    rw [h] at this
    exact Bool.false_ne_true this

theorem strStarts_dash_false (m x : String) (c : Char) (cs : List Char)
    (hm : m.data = c :: cs) (hc : (c == '-') = false) :
    strStarts ("- " ++ x) m = false := by
  have hdata : ("- " ++ x).data = '-' :: ' ' :: x.data := by
    rw [String.data_append]; rfl
  simp [strStarts, hdata, hm, prefixOfCh, hc]

theorem strAppend_cancel_left (p a b : String) (h : p ++ a = p ++ b) : a = b := by
  have hd := congrArg String.data h
  rw [String.data_append, String.data_append] at hd
  exact String.ext (List.append_cancel_left hd)

/-! ### C1: the prerequisite resolver -/

/-- C1 (counterexample): contrary to the claim, `resolve("Tier3_TimeSeries")`
does not return the Tier-3-specific sentence: the lower-cased title
`"tier3_timeseries"` contains neither `"tier 3"` nor `"time series"`
(both keywords carry a space), so the resolver falls through to the
generic fallback sentence. -/
theorem c1_counterexample :
    resolvePrerequisites "Tier3_TimeSeries" ≠
      "Tier 2 completion, time series concepts, intermediate statistics" ∧
    resolvePrerequisites "Tier3_TimeSeries" =
      "Appropriate mathematical background for the analytical complexity level" := by
  constructor
  · decide
  · decide

/-- C1 (amended): the resolver lower-cases the title and tests the six
substring pairs in priority order, first match winning; both
`resolve("Unknown Topic")` and `resolve("Tier3_TimeSeries")` return the
generic fallback sentence. -/
theorem c1_resolver_priority (title : String) :
    ((strIn "tier 1" (lowerStr title) || strIn "descriptive" (lowerStr title)) = true →
      resolvePrerequisites title =
        "Basic statistics, Excel proficiency, curiosity about data") ∧
    ((strIn "tier 1" (lowerStr title) || strIn "descriptive" (lowerStr title)) = false →
     (strIn "tier 2" (lowerStr title) || strIn "regression" (lowerStr title)) = true →
      resolvePrerequisites title =
        "Tier 1 completion, basic linear algebra, introductory statistics") ∧
    ((strIn "tier 1" (lowerStr title) || strIn "descriptive" (lowerStr title)) = false →
     (strIn "tier 2" (lowerStr title) || strIn "regression" (lowerStr title)) = false →
     (strIn "tier 3" (lowerStr title) || strIn "time series" (lowerStr title)) = true →
      resolvePrerequisites title =
        "Tier 2 completion, time series concepts, intermediate statistics") ∧
    ((strIn "tier 1" (lowerStr title) || strIn "descriptive" (lowerStr title)) = false →
     (strIn "tier 2" (lowerStr title) || strIn "regression" (lowerStr title)) = false →
     (strIn "tier 3" (lowerStr title) || strIn "time series" (lowerStr title)) = false →
     (strIn "tier 4" (lowerStr title) || strIn "unsupervised" (lowerStr title)) = true →
      resolvePrerequisites title =
        "Tier 3 completion, linear algebra, unsupervised learning basics") ∧
    ((strIn "tier 1" (lowerStr title) || strIn "descriptive" (lowerStr title)) = false →
     (strIn "tier 2" (lowerStr title) || strIn "regression" (lowerStr title)) = false →
     (strIn "tier 3" (lowerStr title) || strIn "time series" (lowerStr title)) = false →
     (strIn "tier 4" (lowerStr title) || strIn "unsupervised" (lowerStr title)) = false →
     (strIn "tier 5" (lowerStr title) || strIn "ensemble" (lowerStr title)) = true →
      resolvePrerequisites title =
        "Tier 4 completion, ensemble methods understanding, advanced ML concepts") ∧
    ((strIn "tier 1" (lowerStr title) || strIn "descriptive" (lowerStr title)) = false →
     (strIn "tier 2" (lowerStr title) || strIn "regression" (lowerStr title)) = false →
     (strIn "tier 3" (lowerStr title) || strIn "time series" (lowerStr title)) = false →
     (strIn "tier 4" (lowerStr title) || strIn "unsupervised" (lowerStr title)) = false →
     (strIn "tier 5" (lowerStr title) || strIn "ensemble" (lowerStr title)) = false →
     (strIn "tier 6" (lowerStr title) || strIn "advanced" (lowerStr title)) = true →
      resolvePrerequisites title =
        "Tier 5 completion, advanced statistics, domain expertise in target application") ∧
    ((strIn "tier 1" (lowerStr title) || strIn "descriptive" (lowerStr title)) = false →
     (strIn "tier 2" (lowerStr title) || strIn "regression" (lowerStr title)) = false →
     (strIn "tier 3" (lowerStr title) || strIn "time series" (lowerStr title)) = false →
     (strIn "tier 4" (lowerStr title) || strIn "unsupervised" (lowerStr title)) = false →
     (strIn "tier 5" (lowerStr title) || strIn "ensemble" (lowerStr title)) = false →
     (strIn "tier 6" (lowerStr title) || strIn "advanced" (lowerStr title)) = false →
      resolvePrerequisites title =
        "Appropriate mathematical background for the analytical complexity level") ∧
    resolvePrerequisites "Unknown Topic" =
      "Appropriate mathematical background for the analytical complexity level" ∧
    resolvePrerequisites "Tier3_TimeSeries" =
      "Appropriate mathematical background for the analytical complexity level" := by
  refine ⟨?_, ?_, ?_, ?_, ?_, ?_, ?_, by decide, by decide⟩ <;>
    · intros
      simp_all [resolvePrerequisites]

/-- C1 (witness): the first branch fires on a title containing
`"tier 1"`. -/
theorem c1_resolver_priority_witness :
    resolvePrerequisites "Tier 1 Basics" =
      "Basic statistics, Excel proficiency, curiosity about data" :=
  (c1_resolver_priority "Tier 1 Basics").1 (by decide)

/-! ### C5: the list-truncation policy -/

/-- C5: a truncated subsection shows `min(L, cap)` item lines; when
`L ≤ cap` the body is exactly the item bullets, when `L > cap` it is the
first `cap` bullets followed by the single overflow line stating
`L - cap`; the body length is `min(L, cap)` plus one exactly when
truncating. -/
theorem c5_truncation (marker nm noun : String) (cap : Nat) (items : List String) :
    (((listSection marker nm noun cap items).drop 2).take (min items.length cap)
        = (items.take cap).map (fun x => "- " ++ x)) ∧
    (items.length ≤ cap →
      (listSection marker nm noun cap items).drop 2
        = items.map (fun x => "- " ++ x)) ∧
    (cap < items.length →
      (listSection marker nm noun cap items).drop 2
        = (items.take cap).map (fun x => "- " ++ x) ++
            ["- *...and " ++ toString (items.length - cap) ++ " " ++ noun ++ "*"]) ∧
    ((listSection marker nm noun cap items).drop 2).length
        = min items.length cap + (if cap < items.length then 1 else 0) := by
  by_cases h : items.length ≤ cap
  · have hnot : ¬ items.length > cap := by omega
    have hmin : min items.length cap = items.length := by omega
    have htk : items.take cap = items := List.take_of_length_le h
    refine ⟨?_, fun _ => ?_, fun hc => absurd hc (by omega), ?_⟩
    · simp [listSection, hnot, hmin, htk]
    · simp [listSection, hnot]
    · simp [listSection, hnot, hmin, if_neg (by omega : ¬ cap < items.length)]
  · have hgt : items.length > cap := by omega
    have hmin : min items.length cap = cap := by omega
    have hA : ((items.take cap).map (fun x => "- " ++ x)).length = cap := by
      simp [List.length_take]
      omega
    refine ⟨?_, fun hle => absurd hle h, fun _ => ?_, ?_⟩
    · rw [hmin]
      simp only [listSection, if_pos hgt, List.cons_append, List.nil_append,
        List.drop_succ_cons, List.drop_zero]
      exact List.take_left' hA
    · simp [listSection, hgt]
    · simp only [listSection, if_pos hgt, List.cons_append, List.nil_append,
        List.drop_succ_cons, List.drop_zero, List.length_append, hA,
        List.length_singleton, hmin, if_pos (show cap < items.length by omega)]

/-- C5 (witness): a `business_applications` list of 7 entries renders its
first 5 bullet lines followed by the single overflow line
`- *...and 2 more applications*`. -/
theorem c5_truncation_witness :
    (listSection "### 🏢" "Business Applications" "more applications" 5
        ["a1", "a2", "a3", "a4", "a5", "a6", "a7"]).drop 2
      = ["- a1", "- a2", "- a3", "- a4", "- a5",
         "- *...and 2 more applications*"] := by
  have h := (c5_truncation "### 🏢" "Business Applications" "more applications" 5
    ["a1", "a2", "a3", "a4", "a5", "a6", "a7"]).2.2.1 (by decide)
  rw [h]
  decide

/-! ### C7: the registry loader fallback -/

/-- C7 (counterexample): contrary to the claim, a missing registry file
produces no warning: the loader takes the `else` branch and returns the
fallback silently; only the `except` branch prints the warning. -/
theorem c7_counterexample :
    (loadRegistry none).1 = fallbackRegistry ∧ (loadRegistry none).2 = false :=
  ⟨rfl, rfl⟩

/-- C7 (amended): a missing file returns the built-in fallback registry
with no warning; a file that fails to parse returns it with the warning;
the fallback has `repository` populated and an empty `notebooks` mapping;
and a render after a load failure still succeeds, referencing the
fallback author and affiliation of the repository.  The loader never raises. -/
theorem c7_loader_fallback :
    loadRegistry none = (fallbackRegistry, false) ∧
    loadRegistry (some none) = (fallbackRegistry, true) ∧
    (∃ r, fallbackRegistry.repository = some r) ∧
    fallbackRegistry.notebooks = [] ∧
    (∀ ts p v key d f, ∃ ls,
      assembleHeader (mkGenerator (some none) ts p v) key d f = Except.ok ls ∧
      "**Author:** Bryson Charles de los Reyes, PHD" ∈ ls ∧
      "**Affiliation:** Universidad Católica de Santa María" ∈ ls) := by
  refine ⟨rfl, rfl, ⟨_, rfl⟩, rfl, fun ts p v key d f => ?_⟩
  refine ⟨_, rfl, ?_, ?_⟩ <;>
    · simp [headerLines, headBlock, fallbackRegistry, List.mem_append, List.mem_cons]

/-! ### C2: execution provenance is memoized, not call-time -/

/-- C2 (counterexample): the Execution Provenance block is not populated
from render-call-time values.  On a generator constructed with timestamp
`"2025-01-01 00:00:00"`, two render calls made at different times
(call-time dates `"2025-06-01"` and `"2025-07-01"`) produce identical
documents, both showing the construction-time timestamp. -/
theorem c2_counterexample :
    ("2025-06-01" : String) ≠ "2025-07-01" ∧
    generate_enhanced_header sampleGenFull (some "nb") "2025-06-01" "u" =
      generate_enhanced_header sampleGenFull (some "nb") "2025-07-01" "u" ∧
    "- **Current Execution:** 2025-01-01 00:00:00" ∈
      generate_enhanced_header sampleGenFull (some "nb") "2025-06-01" "u" := by
  refine ⟨by decide, by decide, by decide⟩

/-- C2 (amended): the Execution Provenance values are captured once at
generator construction (`__init__`) and memoized on the instance: every
render call on that instance, whatever its call-time date, shows the
construction-time timestamp, platform and runtime version. -/
theorem c2_provenance_memoized (file : Option (Option Registry))
    (ts plat pyver : String) (key : Option String) (d f : String)
    (r : Repository) (hr : ((loadRegistry file).1).repository = some r) :
    ("- **Current Execution:** " ++ ts) ∈
      generate_enhanced_header (mkGenerator file ts plat pyver) key d f ∧
    ("- **Platform:** " ++ plat) ∈
      generate_enhanced_header (mkGenerator file ts plat pyver) key d f ∧
    ("- **Python Version:** " ++ pyver) ∈
      generate_enhanced_header (mkGenerator file ts plat pyver) key d f := by
  refine ⟨?_, ?_, ?_⟩ <;>
    · simp [generate_enhanced_header, assembleHeader, mkGenerator, hr,
        headerLines, execBlock, List.mem_append, List.mem_cons]

/-- C2 (witness): the memoization theorem at a concrete instance. -/
theorem c2_provenance_memoized_witness :
    ("- **Current Execution:** 2025-01-01 00:00:00") ∈
      generate_enhanced_header
        (mkGenerator none "2025-01-01 00:00:00" "P" "V") (some "k") "2025-06-01" "u" :=
  (c2_provenance_memoized none "2025-01-01 00:00:00" "P" "V" (some "k") "2025-06-01" "u"
    { name := "Quipu Analytics Suite",
      author := "Bryson Charles de los Reyes, PHD",
      affiliation := "Universidad Católica de Santa María",
      license := "MIT",
      version := "v1.3" } rfl).1

/-! ### C4: the top-level exception handler -/

/-- C4 (counterexample): the error document does not contain the notebook
key.  On a registry record lacking the `repository` key, rendering the
key `"Tier2_LinearRegression.ipynb"` returns the minimal error document,
and no line of it contains that key. -/
theorem c4_counterexample :
    generate_enhanced_header noRepoGen
        (some "Tier2_LinearRegression.ipynb") "2025-06-01" "uid"
      = errorDoc keyErrorRepository ∧
    (generate_enhanced_header noRepoGen
        (some "Tier2_LinearRegression.ipynb") "2025-06-01" "uid").all
      (fun l => !(strIn "Tier2_LinearRegression.ipynb" l)) = true := by
  refine ⟨by decide, by decide⟩

/-- C4 (amended): whenever the assembly raises, the renderer returns the
minimal error document — which contains the error message, but not the
notebook key — and never propagates the exception. -/
theorem c4_error_document (g : Generator) (key : Option String)
    (d f e : String) (h : assembleHeader g key d f = Except.error e) :
    generate_enhanced_header g key d f = errorDoc e ∧
    (∃ l ∈ generate_enhanced_header g key d f, strIn e l = true) := by
  have hgen : generate_enhanced_header g key d f = errorDoc e := by
    simp [generate_enhanced_header, h]
  refine ⟨hgen, "❌ Error generating enhanced header: " ++ e, ?_, ?_⟩
  · rw [hgen]
    simp [errorDoc]
  · exact strIn_append_self "❌ Error generating enhanced header: " e

/-- C4 (witness): the handler theorem at the concrete no-`repository`
generator. -/
theorem c4_error_document_witness :
    generate_enhanced_header noRepoGen (some "k") "d" "f"
        = errorDoc keyErrorRepository ∧
    (∃ l ∈ generate_enhanced_header noRepoGen (some "k") "d" "f",
      strIn keyErrorRepository l = true) :=
  c4_error_document noRepoGen (some "k") "d" "f" keyErrorRepository rfl

/-! ### C6: unknown keys get a synthesized record and a fresh UUID -/

theorem hexDigit_isHexLower (n : Nat) : isHexLower (hexDigit n) = true := by
  have h : n % 16 < 16 := Nat.mod_lt _ (by norm_num)
  have hall : ∀ m, m < 16 → isHexLower (hexChars.getD m '0') = true := by decide
  exact hall _ h

theorem hexDigit_variant (n : Nat) :
    (hexDigit (8 + n % 4) == '8' || hexDigit (8 + n % 4) == '9' ||
      hexDigit (8 + n % 4) == 'a' || hexDigit (8 + n % 4) == 'b') = true := by
  have h : n % 4 < 4 := Nat.mod_lt _ (by norm_num)
  have hall : ∀ m, m < 4 →
      (hexDigit (8 + m) == '8' || hexDigit (8 + m) == '9' ||
        hexDigit (8 + m) == 'a' || hexDigit (8 + m) == 'b') = true := by decide
  exact hall _ h

/-- Every draw of the modelled `str(uuid.uuid4())` matches the UUID-v4
textual shape. -/
theorem uuid4str_shape (r : Nat → Nat) : isUuid4Shape (uuid4str r) = true := by
  simp only [uuid4str, isUuid4Shape, List.all_cons, List.all_nil,
    hexDigit_isHexLower, Bool.and_true, Bool.true_and]
  simp [hexDigit_variant]

/-- The synthesized record resolves for any key the registry lacks. -/
theorem resolveInfo_of_missing (reg : Registry) (k d : String)
    (hk : lookupNb reg.notebooks k = none) :
    resolveInfo reg (some k) d = synthInfo d := by
  by_cases hke : k == "" <;> simp [resolveInfo, hke, hk]

/-- C6: rendering a key absent from the registry never errors: the
assembly succeeds, the title line of the document is `# Analytics Notebook`,
its date line carries the call-time (today) date, and its identifier is
the freshly drawn UUID, which matches the UUID-v4 shape. -/
theorem c6_unknown_key (g : Generator) (k d : String) (r : Repository)
    (rand : Nat → Nat) (hr : g.registry.repository = some r)
    (hk : lookupNb g.registry.notebooks k = none) :
    (∃ ls, assembleHeader g (some k) d (uuid4str rand) = Except.ok ls ∧
      ls.get? 0 = some "# Analytics Notebook" ∧
      ls.get? 6 = some ("**Date:** " ++ d) ∧
      ls.get? 9 = some ("**Notebook ID:** " ++ uuid4str rand)) ∧
    isUuid4Shape (uuid4str rand) = true := by
  have hinfo := resolveInfo_of_missing g.registry k d hk
  have hok : assembleHeader g (some k) d (uuid4str rand) =
      Except.ok (headerLines r (synthInfo d) d (uuid4str rand) g.execution_metadata) := by
    simp [assembleHeader, hinfo, hr, synthInfo]
  exact ⟨⟨_, hok, rfl, rfl, rfl⟩, uuid4str_shape rand⟩

/-- C6 (witness): a concrete empty-registry render of a missing key. -/
theorem c6_unknown_key_witness :
    (∃ ls, assembleHeader
        { registry := fallbackRegistry,
          execution_metadata :=
            { execution_timestamp := "T", platform := "P", python_version := "V" } }
        (some "missing") "2025-06-01" (uuid4str (fun i => i)) = Except.ok ls ∧
      ls.get? 0 = some "# Analytics Notebook" ∧
      ls.get? 6 = some ("**Date:** " ++ "2025-06-01") ∧
      ls.get? 9 = some ("**Notebook ID:** " ++ uuid4str (fun i => i))) ∧
    isUuid4Shape (uuid4str (fun i => i)) = true :=
  c6_unknown_key
    { registry := fallbackRegistry,
      execution_metadata :=
        { execution_timestamp := "T", platform := "P", python_version := "V" } }
    "missing" "2025-06-01"
    { name := "Quipu Analytics Suite",
      author := "Bryson Charles de los Reyes, PHD",
      affiliation := "Universidad Católica de Santa María",
      license := "MIT",
      version := "v1.3" }
    (fun i => i) rfl rfl

/-! ### C9 and C10: identifier behavior across and within renders -/

/-- Line 9 of every successfully assembled document is the authorship
Notebook ID line. -/
theorem headerLines_get9 (repo : Repository) (info : NotebookInfo)
    (nowDate nid : String) (em : ExecutionMetadata) :
    (headerLines repo info nowDate nid em).get? 9 =
      some ("**Notebook ID:** " ++ nid) := by
  rw [headerLines]
  simp only [List.append_assoc]
  rw [List.get?_append (show 9 < (headBlock repo info nowDate nid).length from by norm_num [headBlock])]
  rfl

/-- Any line of the Execution Provenance block occurs in the full
document. -/
theorem headerLines_mem_exec (repo : Repository) (info : NotebookInfo)
    (nowDate nid : String) (em : ExecutionMetadata) (l : String)
    (hl : l ∈ execBlock info nowDate nid em) :
    l ∈ headerLines repo info nowDate nid em := by
  simp only [headerLines, List.append_assoc, List.mem_append]
  tauto

/-- On a registry whose `repository` key is present, the render is the
assembled document with the identifier `notebook_id.getD freshId`. -/
theorem generate_eq_headerLines (g : Generator) (key : Option String)
    (d f : String) (r : Repository) (hr : g.registry.repository = some r) :
    generate_enhanced_header g key d f =
      headerLines r (resolveInfo g.registry key d) d
        ((resolveInfo g.registry key d).notebook_id.getD f) g.execution_metadata := by
  simp [generate_enhanced_header, assembleHeader, hr]

/-- C9: rendering is deterministic in the generator instance, key and
call-time date, except for the fresh identifier draw: when the record
carries a `notebook_id` the draw is ignored and two renders on identical
inputs are identical documents; when it is absent, the rendered
identifier is the draw itself, so two calls with distinct draws produce
distinct documents. -/
theorem c9_identifier_behavior :
    (∀ (g : Generator) (key : Option String) (d f1 f2 : String)
      (r : Repository) (nid : String),
      g.registry.repository = some r →
      (resolveInfo g.registry key d).notebook_id = some nid →
      generate_enhanced_header g key d f1 = generate_enhanced_header g key d f2) ∧
    (∀ (g : Generator) (key : Option String) (d f1 f2 : String) (r : Repository),
      g.registry.repository = some r →
      (resolveInfo g.registry key d).notebook_id = none →
      f1 ≠ f2 →
      (generate_enhanced_header g key d f1).get? 9 =
          some ("**Notebook ID:** " ++ f1) ∧
      generate_enhanced_header g key d f1 ≠ generate_enhanced_header g key d f2) := by
  constructor
  · intro g key d f1 f2 r nid hr hid
    rw [generate_eq_headerLines g key d f1 r hr,
      generate_eq_headerLines g key d f2 r hr, hid]
    rfl
  · intro g key d f1 f2 r hr hid hne
    have h1 := generate_eq_headerLines g key d f1 r hr
    have h2 := generate_eq_headerLines g key d f2 r hr
    rw [hid] at h1 h2
    simp only [Option.getD_none] at h1 h2
    constructor
    · rw [h1, headerLines_get9]
    · intro heq
      apply hne
      have h9 := congrArg (fun ls => ls.get? 9) heq
      simp only [h1, h2, headerLines_get9, Option.some.injEq] at h9
      exact strAppend_cancel_left _ _ _ h9

/-- C9 (witness): with `notebook_id` present, two distinct draws yield the
same document. -/
theorem c9_identifier_behavior_witness :
    generate_enhanced_header sampleGenFull (some "nb") "2025-06-01" "u1" =
      generate_enhanced_header sampleGenFull (some "nb") "2025-06-01" "u2" :=
  c9_identifier_behavior.1 sampleGenFull (some "nb") "2025-06-01" "u1" "u2"
    fallbackRepo "nid-1" rfl rfl

/-- C10: within one rendered document the authorship Notebook ID (line 9)
and the Execution Provenance Notebook ID line carry the same identifier,
also when it is the freshly drawn one. -/
theorem c10_id_consistency (g : Generator) (key : Option String) (d f : String)
    (r : Repository) (hr : g.registry.repository = some r) :
    ∃ nid, (generate_enhanced_header g key d f).get? 9 =
        some ("**Notebook ID:** " ++ nid) ∧
      ("- **Notebook ID:** " ++ nid) ∈ generate_enhanced_header g key d f := by
  have hgen := generate_eq_headerLines g key d f r hr
  refine ⟨(resolveInfo g.registry key d).notebook_id.getD f, ?_, ?_⟩
  · rw [hgen, headerLines_get9]
  · rw [hgen]
    exact headerLines_mem_exec _ _ _ _ _ _ (by simp [execBlock])

/-- C10 (witness): the consistency theorem at a concrete registry. -/
theorem c10_id_consistency_witness :
    ∃ nid, (generate_enhanced_header sampleGenFull (some "nb") "2025-06-01" "u").get? 9 =
        some ("**Notebook ID:** " ++ nid) ∧
      ("- **Notebook ID:** " ++ nid) ∈
        generate_enhanced_header sampleGenFull (some "nb") "2025-06-01" "u" :=
  c10_id_consistency sampleGenFull (some "nb") "2025-06-01" "u" fallbackRepo rfl

/-! ### C8: the sector classifier -/

theorem mem_addSector (s : List String) (x y : String) :
    y ∈ addSector s x ↔ y ∈ s ∨ y = x := by
  by_cases h : x ∈ s
  · simp only [addSector, if_pos h]
    constructor
    · exact Or.inl
    · rintro (hy | rfl)
      · exact hy
      · exact h
  · simp [addSector, if_neg h]

theorem nodup_addSector (s : List String) (x : String) (h : s.Nodup) :
    (addSector s x).Nodup := by
  by_cases hx : x ∈ s
  · simpa [addSector, if_pos hx] using h
  · simp [addSector, if_neg hx, List.nodup_append, h, hx]

theorem mem_innerFold (app : String) (table : List (String × List String))
    (acc : List String) (y : String) :
    (y ∈ table.foldl
        (fun acc2 p => if appMatches p.2 app then addSector acc2 p.1 else acc2) acc) ↔
      (y ∈ acc ∨ ∃ kws, (y, kws) ∈ table ∧ appMatches kws app = true) := by
  induction table generalizing acc with
  | nil => simp
  | cons p t ih =>
    simp only [List.foldl_cons]
    by_cases h : appMatches p.2 app
    · rw [if_pos h, ih, mem_addSector]
      constructor
      · rintro ((hy | rfl) | ⟨kws, hkt, hm⟩)
        · exact Or.inl hy
        · exact Or.inr ⟨p.2, by simp, h⟩
        · exact Or.inr ⟨kws, by simp [hkt], hm⟩
      · rintro (hy | ⟨kws, hk, hm⟩)
        · exact Or.inl (Or.inl hy)
        · rcases List.mem_cons.1 hk with hk | hk
          · exact Or.inl (Or.inr (by rw [Prod.ext_iff] at hk; exact hk.1.symm ▸ rfl))
          · exact Or.inr ⟨kws, hk, hm⟩
    · rw [if_neg h, ih]
      constructor
      · rintro (hy | ⟨kws, hkt, hm⟩)
        · exact Or.inl hy
        · exact Or.inr ⟨kws, by simp [hkt], hm⟩
      · rintro (hy | ⟨kws, hk, hm⟩)
        · exact Or.inl hy
        · rcases List.mem_cons.1 hk with hk | hk
          · exfalso
            rw [Prod.ext_iff] at hk
            rw [← hk.2] at h
            exact h (by rw [hm])
          · exact Or.inr ⟨kws, hk, hm⟩

theorem nodup_innerFold (app : String) (table : List (String × List String))
    (acc : List String) (h : acc.Nodup) :
    (table.foldl
      (fun acc2 p => if appMatches p.2 app then addSector acc2 p.1 else acc2)
      acc).Nodup := by
  induction table generalizing acc with
  | nil => exact h
  | cons p t ih =>
    simp only [List.foldl_cons]
    by_cases hm : appMatches p.2 app
    · rw [if_pos hm]
      exact ih _ (nodup_addSector _ _ h)
    · rw [if_neg hm]
      exact ih _ h

theorem mem_matchedSectors (apps : List String) (y : String) :
    y ∈ matchedSectors apps ↔
      ∃ app ∈ apps, ∃ kws, (y, kws) ∈ sectorKeywords ∧ appMatches kws app = true := by
  have hgen : ∀ (l : List String) (acc : List String),
      (y ∈ l.foldl
          (fun acc app =>
            sectorKeywords.foldl
              (fun acc2 p => if appMatches p.2 app then addSector acc2 p.1 else acc2)
              acc)
          acc) ↔
        (y ∈ acc ∨ ∃ app ∈ l, ∃ kws, (y, kws) ∈ sectorKeywords ∧
          appMatches kws app = true) := by
    intro l
    induction l with
    | nil => simp
    | cons a t ih =>
      intro acc
      simp only [List.foldl_cons]
      rw [ih, mem_innerFold]
      constructor
      · rintro ((hy | ⟨kws, hk, hm⟩) | ⟨app, ha, hrest⟩)
        · exact Or.inl hy
        · exact Or.inr ⟨a, by simp, kws, hk, hm⟩
        · exact Or.inr ⟨app, by simp [ha], hrest⟩
      · rintro (hy | ⟨app, ha, hrest⟩)
        · exact Or.inl (Or.inl hy)
        · rcases List.mem_cons.1 ha with rfl | ha
          · exact Or.inl (Or.inr hrest)
          · exact Or.inr ⟨app, ha, hrest⟩
  simpa using hgen apps []

theorem nodup_matchedSectors (apps : List String) : (matchedSectors apps).Nodup := by
  have hgen : ∀ (l : List String) (acc : List String), acc.Nodup →
      (l.foldl
        (fun acc app =>
          sectorKeywords.foldl
            (fun acc2 p => if appMatches p.2 app then addSector acc2 p.1 else acc2)
            acc)
        acc).Nodup := by
    intro l
    induction l with
    | nil => exact fun _ h => h
    | cons a t ih =>
      intro acc hacc
      simp only [List.foldl_cons]
      exact ih _ (nodup_innerFold a sectorKeywords acc hacc)
  exact hgen apps [] List.nodup_nil

/-- C8: the classifier result contains a sector exactly when some
application string matches one of the keywords of that sector
(case-insensitively, as a substring); the result is sorted and
duplicate-free; and `classify(["Fraud detection system"])` is exactly
`["Financial Services"]`. -/
theorem c8_classifier (apps : List String) :
    (∀ s : String, s ∈ classify apps ↔
      ∃ kws, (s, kws) ∈ sectorKeywords ∧
        ∃ app ∈ apps, appMatches kws app = true) ∧
    (classify apps).Sorted (fun a b : String => a ≤ b) ∧
    (classify apps).Nodup ∧
    classify ["Fraud detection system"] = ["Financial Services"] := by
  refine ⟨?_, ?_, ?_, by decide⟩
  · intro s
    rw [classify, (List.perm_insertionSort _ _).mem_iff, mem_matchedSectors]
    constructor
    · rintro ⟨app, ha, kws, hk, hm⟩
      exact ⟨kws, hk, app, ha, hm⟩
    · rintro ⟨kws, hk, app, ha, hm⟩
      exact ⟨app, ha, kws, hk, hm⟩
  · exact List.sorted_insertionSort _ _
  · exact ((List.perm_insertionSort (fun a b : String => a ≤ b)
      (matchedSectors apps)).symm.nodup (nodup_matchedSectors apps))

/-! ### C3: conditional subsections appear iff their field is present -/

/-- Every line of a truncated subsection is blank, starts with the
section marker, or is a dash bullet. -/
theorem mem_listSection_shape (m' nm noun : String) (cap : Nat)
    (items : List String) (l : String) (hl : l ∈ listSection m' nm noun cap items) :
    l = "" ∨ (∃ r : List Char, l.data = m'.data ++ r) ∨
      (∃ r : List Char, l.data = '-' :: ' ' :: r) := by
  simp only [listSection, List.cons_append, List.nil_append, List.mem_cons] at hl
  rcases hl with rfl | rfl | hl
  · exact Or.inl rfl
  · refine Or.inr (Or.inl ⟨(" " ++ nm ++ " (" ++ toString items.length ++ " total)").data, ?_⟩)
    simp [String.data_append, List.append_assoc]
  · by_cases hc : items.length > cap
    · rw [if_pos hc] at hl
      rcases List.mem_append.1 hl with hl | hl
      · obtain ⟨x, _, rfl⟩ := List.mem_map.1 hl
        refine Or.inr (Or.inr ⟨x.data, ?_⟩)
        rw [String.data_append]
        rfl
      · rcases List.mem_singleton.1 hl with rfl
        refine Or.inr (Or.inr
          ⟨("*...and " ++ toString (items.length - cap) ++ " " ++ noun ++ "*").data, ?_⟩)
        simp [String.data_append, List.append_assoc]
    · rw [if_neg hc] at hl
      obtain ⟨x, _, rfl⟩ := List.mem_map.1 hl
      refine Or.inr (Or.inr ⟨x.data, ?_⟩)
      rw [String.data_append]
      rfl

/-- A marker that opens with `#` and is neither a prefix of `m'` nor
longer than it matches no line of an `m'`-marked subsection. -/
theorem listSection_starts_false (m m' nm noun : String) (cap : Nat)
    (items : List String) (hhead : ∃ as, m.data = '#' :: as)
    (hmm' : prefixOfCh m.data m'.data = false)
    (hlen : m.data.length ≤ m'.data.length) :
    ∀ l ∈ listSection m' nm noun cap items, strStarts l m = false := by
  intro l hl
  obtain ⟨as, has⟩ := hhead
  rcases mem_listSection_shape m' nm noun cap items l hl with rfl | ⟨r, hr⟩ | ⟨r, hr⟩
  · simp [strStarts, has, prefixOfCh]
  · exact strStarts_of_ne_marker l m m' r hr hmm' hlen
  · have hne : (('#' : Char) == '-') = false := by decide
    simp [strStarts, has, hr, prefixOfCh, hne]

/-- The header line of a subsection starts with its own marker. -/
theorem listSection_starts_true (m nm noun : String) (cap : Nat)
    (items : List String) :
    ∃ l ∈ listSection m nm noun cap items, strStarts l m = true := by
  refine ⟨m ++ " " ++ nm ++ " (" ++ toString items.length ++ " total)", ?_, ?_⟩
  · simp [listSection]
  · refine strStarts_of_data_prefix _ _
      ((" " ++ nm ++ " (" ++ toString items.length ++ " total)").data) ?_
    simp [String.data_append, List.append_assoc]

/-- An optional truncated subsection, as it occurs inside
`contributorSections`. -/
theorem optSection_starts_false (m m' nm noun : String) (cap : Nat)
    (o : Option (List String)) (hhead : ∃ as, m.data = '#' :: as)
    (hmm' : prefixOfCh m.data m'.data = false)
    (hlen : m.data.length ≤ m'.data.length) :
    ∀ l ∈ (match o with
           | some xs => listSection m' nm noun cap xs
           | none => ([] : List String)), strStarts l m = false := by
  cases o with
  | none => simp
  | some xs => exact listSection_starts_false m m' nm noun cap xs hhead hmm' hlen

/-- The Notebook Scope subsection matches no foreign marker, provided the
scope text does not itself start with `### `. -/
theorem scopeSec_starts_false (m : String) (o : Option String)
    (hhead : ∃ as, m.data = '#' :: as)
    (hhdr : strStarts "### 📋 Notebook Scope" m = false)
    (hsc : ∀ s, o = some s → strStarts s m = false) :
    ∀ l ∈ (match o with
           | some s => ["", "### 📋 Notebook Scope", s]
           | none => ([] : List String)), strStarts l m = false := by
  cases o with
  | none => simp
  | some sc =>
    intro l hl
    obtain ⟨as, has⟩ := hhead
    rcases (by simpa using hl : l = "" ∨ l = "### 📋 Notebook Scope" ∨ l = sc) with
      rfl | rfl | hls
    · simp [strStarts, has, prefixOfCh]
    · exact hhdr
    · rw [hls]
      exact hsc sc rfl

/-- C3 (counterexample): a present-but-empty `business_applications` list
still renders its subsection header: the code tests field presence, not
non-emptiness, so the output contains the empty subsection header
`### 🏢 Business Applications (0 total)`. -/
theorem c3_counterexample :
    emptyBizInfo.business_applications = some ([] : List String) ∧
    "### 🏢 Business Applications (0 total)" ∈
      generate_enhanced_header emptyBizGen (some "nb") "2025-01-01" "id-x" :=
  ⟨rfl, by decide⟩

/-- C3 (amended): each conditional subsection of the Contributors block
appears in the rendered document exactly when its source field is
*present* (even when it is an empty list): an absent field leaves no line
starting with its subsection marker, a present field contributes one; the
conditional subsections occur verbatim as a contiguous segment of every
successfully rendered document.  (The scope text is assumed not to start
with `### `, so it cannot impersonate a subsection header.) -/
theorem c3_conditional_subsections (info : NotebookInfo)
    (hscope : ∀ s, info.notebook_scope = some s → strStarts s "### " = false) :
    ((∃ s, info.notebook_scope = some s) →
      ∃ l ∈ contributorSections info, strStarts l "### 📋" = true) ∧
    (info.notebook_scope = none →
      ∀ l ∈ contributorSections info, strStarts l "### 📋" = false) ∧
    ((∃ xs, info.business_applications = some xs) →
      ∃ l ∈ contributorSections info, strStarts l "### 🏢" = true) ∧
    (info.business_applications = none →
      ∀ l ∈ contributorSections info, strStarts l "### 🏢" = false) ∧
    ((∃ xs, info.models_implemented = some xs) →
      ∃ l ∈ contributorSections info, strStarts l "### 🤖" = true) ∧
    (info.models_implemented = none →
      ∀ l ∈ contributorSections info, strStarts l "### 🤖" = false) ∧
    ((∃ xs, info.key_visualizations = some xs) →
      ∃ l ∈ contributorSections info, strStarts l "### 📊" = true) ∧
    (info.key_visualizations = none →
      ∀ l ∈ contributorSections info, strStarts l "### 📊" = false) ∧
    ((∃ xs, info.learning_outcomes = some xs) →
      ∃ l ∈ contributorSections info, strStarts l "### 🎓" = true) ∧
    (info.learning_outcomes = none →
      ∀ l ∈ contributorSections info, strStarts l "### 🎓" = false) ∧
    (∀ (g : Generator) (key : Option String) (d f : String) (r : Repository),
      g.registry.repository = some r →
      ∃ pre suf, generate_enhanced_header g key d f =
        pre ++ contributorSections (resolveInfo g.registry key d) ++ suf) := by
  have hsc : ∀ (m : String) (e : List Char), m.data = "### ".data ++ e →
      ∀ s, info.notebook_scope = some s → strStarts s m = false := by
    intro m e hm s hs
    exact strStarts_false_mono s "### " m e hm (hscope s hs)
  refine ⟨?_, ?_, ?_, ?_, ?_, ?_, ?_, ?_, ?_, ?_, ?_⟩
  · rintro ⟨s, hs⟩
    refine ⟨"### 📋 Notebook Scope", ?_, by decide⟩
    simp [contributorSections, hs, List.mem_append]
  · intro h0 l hl
    rw [contributorSections, h0] at hl
    simp only [List.nil_append, List.mem_append] at hl
    rcases hl with ((hl | hl) | hl) | hl
    · exact optSection_starts_false "### 📋" "### 🏢" "Business Applications"
        "more applications" 5 info.business_applications
        ⟨"## 📋".data, by decide⟩ (by decide) (by decide) l hl
    · exact optSection_starts_false "### 📋" "### 🤖" "Models Implemented"
        "additional models" 5 info.models_implemented
        ⟨"## 📋".data, by decide⟩ (by decide) (by decide) l hl
    · exact optSection_starts_false "### 📋" "### 📊" "Key Visualizations"
        "additional visualizations" 4 info.key_visualizations
        ⟨"## 📋".data, by decide⟩ (by decide) (by decide) l hl
    · exact optSection_starts_false "### 📋" "### 🎓" "Learning Outcomes"
        "additional outcomes" 3 info.learning_outcomes
        ⟨"## 📋".data, by decide⟩ (by decide) (by decide) l hl
  · rintro ⟨xs, hxs⟩
    obtain ⟨l, hl, hst⟩ := listSection_starts_true "### 🏢" "Business Applications"
      "more applications" 5 xs
    refine ⟨l, ?_, hst⟩
    simp [contributorSections, hxs, List.mem_append]
    tauto
  · intro h0 l hl
    rw [contributorSections, h0] at hl
    simp only [List.nil_append, List.append_nil, List.mem_append] at hl
    rcases hl with ((hl | hl) | hl) | hl
    · exact scopeSec_starts_false "### 🏢" info.notebook_scope
        ⟨"## 🏢".data, by decide⟩ (by decide)
        (hsc "### 🏢" "🏢".data (by decide)) l hl
    · exact optSection_starts_false "### 🏢" "### 🤖" "Models Implemented"
        "additional models" 5 info.models_implemented
        ⟨"## 🏢".data, by decide⟩ (by decide) (by decide) l hl
    · exact optSection_starts_false "### 🏢" "### 📊" "Key Visualizations"
        "additional visualizations" 4 info.key_visualizations
        ⟨"## 🏢".data, by decide⟩ (by decide) (by decide) l hl
    · exact optSection_starts_false "### 🏢" "### 🎓" "Learning Outcomes"
        "additional outcomes" 3 info.learning_outcomes
        ⟨"## 🏢".data, by decide⟩ (by decide) (by decide) l hl
  · rintro ⟨xs, hxs⟩
    obtain ⟨l, hl, hst⟩ := listSection_starts_true "### 🤖" "Models Implemented"
      "additional models" 5 xs
    refine ⟨l, ?_, hst⟩
    simp [contributorSections, hxs, List.mem_append]
    tauto
  · intro h0 l hl
    rw [contributorSections, h0] at hl
    simp only [List.nil_append, List.append_nil, List.mem_append] at hl
    rcases hl with ((hl | hl) | hl) | hl
    · exact scopeSec_starts_false "### 🤖" info.notebook_scope
        ⟨"## 🤖".data, by decide⟩ (by decide)
        (hsc "### 🤖" "🤖".data (by decide)) l hl
    · exact optSection_starts_false "### 🤖" "### 🏢" "Business Applications"
        "more applications" 5 info.business_applications
        ⟨"## 🤖".data, by decide⟩ (by decide) (by decide) l hl
    · exact optSection_starts_false "### 🤖" "### 📊" "Key Visualizations"
        "additional visualizations" 4 info.key_visualizations
        ⟨"## 🤖".data, by decide⟩ (by decide) (by decide) l hl
    · exact optSection_starts_false "### 🤖" "### 🎓" "Learning Outcomes"
        "additional outcomes" 3 info.learning_outcomes
        ⟨"## 🤖".data, by decide⟩ (by decide) (by decide) l hl
  · rintro ⟨xs, hxs⟩
    obtain ⟨l, hl, hst⟩ := listSection_starts_true "### 📊" "Key Visualizations"
      "additional visualizations" 4 xs
    refine ⟨l, ?_, hst⟩
    simp [contributorSections, hxs, List.mem_append]
    tauto
  · intro h0 l hl
    rw [contributorSections, h0] at hl
    simp only [List.nil_append, List.append_nil, List.mem_append] at hl
    rcases hl with ((hl | hl) | hl) | hl
    · exact scopeSec_starts_false "### 📊" info.notebook_scope
        ⟨"## 📊".data, by decide⟩ (by decide)
        (hsc "### 📊" "📊".data (by decide)) l hl
    · exact optSection_starts_false "### 📊" "### 🏢" "Business Applications"
        "more applications" 5 info.business_applications
        ⟨"## 📊".data, by decide⟩ (by decide) (by decide) l hl
    · exact optSection_starts_false "### 📊" "### 🤖" "Models Implemented"
        "additional models" 5 info.models_implemented
        ⟨"## 📊".data, by decide⟩ (by decide) (by decide) l hl
    · exact optSection_starts_false "### 📊" "### 🎓" "Learning Outcomes"
        "additional outcomes" 3 info.learning_outcomes
        ⟨"## 📊".data, by decide⟩ (by decide) (by decide) l hl
  · rintro ⟨xs, hxs⟩
    obtain ⟨l, hl, hst⟩ := listSection_starts_true "### 🎓" "Learning Outcomes"
      "additional outcomes" 3 xs
    refine ⟨l, ?_, hst⟩
    simp [contributorSections, hxs, List.mem_append]
    tauto
  · intro h0 l hl
    rw [contributorSections, h0] at hl
    simp only [List.nil_append, List.append_nil, List.mem_append] at hl
    rcases hl with ((hl | hl) | hl) | hl
    · exact scopeSec_starts_false "### 🎓" info.notebook_scope
        ⟨"## 🎓".data, by decide⟩ (by decide)
        (hsc "### 🎓" "🎓".data (by decide)) l hl
    · exact optSection_starts_false "### 🎓" "### 🏢" "Business Applications"
        "more applications" 5 info.business_applications
        ⟨"## 🎓".data, by decide⟩ (by decide) (by decide) l hl
    · exact optSection_starts_false "### 🎓" "### 🤖" "Models Implemented"
        "additional models" 5 info.models_implemented
        ⟨"## 🎓".data, by decide⟩ (by decide) (by decide) l hl
    · exact optSection_starts_false "### 🎓" "### 📊" "Key Visualizations"
        "additional visualizations" 4 info.key_visualizations
        ⟨"## 🎓".data, by decide⟩ (by decide) (by decide) l hl
  · intro g key d f r hr
    refine ⟨headBlock r (resolveInfo g.registry key d) d
        ((resolveInfo g.registry key d).notebook_id.getD f),
      staticMidBlock ++ provRowsBlock (resolveInfo g.registry key d) ++
        execBlock (resolveInfo g.registry key d) d
          ((resolveInfo g.registry key d).notebook_id.getD f) g.execution_metadata ++
        disclaimerBlock ++ industryBlock (resolveInfo g.registry key d) ++
        prereqBlock (resolveInfo g.registry key d) ++ trailerBlock, ?_⟩
    rw [generate_eq_headerLines g key d f r hr, headerLines]
    simp [List.append_assoc]

/-- C3 (witness): the business-applications subsection is present for a
record whose `business_applications` field is the empty list. -/
theorem c3_conditional_subsections_witness :
    ∃ l ∈ contributorSections emptyBizInfo, strStarts l "### 🏢" = true :=
  (c3_conditional_subsections emptyBizInfo (fun s hs => nomatch hs)).2.2.1
    ⟨[], rfl⟩

end Quipu
